import Mathlib

/-!
Verification of the rust-image-combiner pipeline (src/main.rs) against its
specification. The Rust source is shallowly embedded: u32 arithmetic is
modelled as Nat with explicit reduction modulo 2^32 at each operation,
Rust Vec values are modelled as a list of bytes together with their capacity,
fallible operations return Except, and indexing that can panic returns Option.
-/

/-- Modulus of 32-bit unsigned arithmetic; all u32 operations in the source
reduce modulo this value. -/
def U32_MOD : Nat := 2 ^ 32

/-- A Rust Vec of bytes: its element list together with its capacity.
Rust guarantees cap is at least the length of the data. -/
structure RustVec where
  data : List Nat
  cap : Nat
  deriving DecidableEq, Repr

/-- Model of std io Error (only its identity matters to the pipeline). -/
structure IOError where
  code : Nat
  deriving DecidableEq, Repr

/-- Model of the image crate error type (only its identity matters). -/
structure ImageError where
  code : Nat
  deriving DecidableEq, Repr

/-- The detected encoded image format (image crate ImageFormat); the pipeline
only compares these for equality. -/
inductive ImageFormat
  | Png
  | Jpeg
  | Gif
  | WebP
  | Bmp
  deriving DecidableEq, Repr

/-- The error enum ImageDataErrors of src/main.rs. The spec names
BufferTooSmall as CapacityExceeded, UnableToReadImageFromPath as
PathReadFailure, UnableToFormatImage as FormatUndetected, UnableToDecodeImage
as DecodeFailure and UnableToSaveImage as EncodeFailure. -/
inductive ImageDataErrors
  | DifferentImageFormats
  | BufferTooSmall
  | UnableToReadImageFromPath (e : IOError)
  | UnableToFormatImage (path : String)
  | UnableToDecodeImage (e : ImageError)
  | UnableToSaveImage (e : ImageError)
  deriving DecidableEq, Repr

/-- An RGBA pixel, four 8-bit channels. -/
structure Rgba where
  r : Nat
  g : Nat
  b : Nat
  a : Nat

/-- Model of image crate DynamicImage: a pixel grid with its dimensions. -/
structure DynamicImage where
  width : Nat
  height : Nat
  pixel : Nat → Nat → Rgba

/-- DynamicImage dimensions, a (width, height) pair, as in GenericImageView. -/
def DynamicImage.dimensions (img : DynamicImage) : Nat × Nat :=
  (img.width, img.height)

/-- The u32 buffer size computation of FloatingImage::new in src/main.rs:
height * width * 4 with each multiplication performed in u32. -/
def buffer_size32 (width height : Nat) : Nat :=
  ((height * width) % U32_MOD) * 4 % U32_MOD

/-- FloatingImage of src/main.rs: the output image owning the destination
buffer. -/
structure FloatingImage where
  width : Nat
  height : Nat
  data : RustVec
  name : String
  deriving DecidableEq, Repr

/-- FloatingImage::new of src/main.rs: pre-computes the buffer size in u32
arithmetic and allocates an empty Vec with that capacity. Vec with_capacity
for bytes allocates exactly the requested capacity. -/
def FloatingImage.new (width height : Nat) (name : String) : FloatingImage :=
  { width := width, height := height,
    data := { data := [], cap := buffer_size32 width height }, name := name }

/-- FloatingImage::set_data of src/main.rs: rejects the incoming buffer with
BufferTooSmall when its length exceeds the capacity of the currently stored
buffer, otherwise replaces the stored buffer (capacity included) by it.
Returned pair: the Result together with the updated receiver. -/
def FloatingImage.set_data (self : FloatingImage) (data : RustVec) :
    Except ImageDataErrors Unit × FloatingImage :=
  if data.data.length > self.data.cap then
    (Except.error ImageDataErrors.BufferTooSmall, self)
  else
    (Except.ok (), { self with data := data })

/-- The u32 pixel count dim.0 * dim.1 computed by get_smallest_dimensions. -/
def pix32 (dim : Nat × Nat) : Nat :=
  (dim.1 * dim.2) % U32_MOD

/-- get_smallest_dimensions of src/main.rs: compares the two u32 pixel counts
and returns dim_1 exactly when pix_1 is strictly smaller, else dim_2. -/
def get_smallest_dimensions (dim_1 dim_2 : Nat × Nat) : Nat × Nat :=
  if pix32 dim_1 < pix32 dim_2 then dim_1 else dim_2

/-- DynamicImage::resize_exact with FilterType::Nearest from the image crate
(library collaborator): returns an image of exactly the requested dimensions,
each target pixel sampled from the nearest source pixel. -/
def DynamicImage.resize_exact (img : DynamicImage) (width height : Nat) :
    DynamicImage :=
  { width := width, height := height,
    pixel := fun x y => img.pixel (x * img.width / width) (y * img.height / height) }

/-- standardize_size of src/main.rs: picks the target dimensions with
get_smallest_dimensions and resizes both images to them. -/
def standardize_size (image_1 image_2 : DynamicImage) :
    DynamicImage × DynamicImage :=
  let (width, height) :=
    get_smallest_dimensions image_1.dimensions image_2.dimensions
  (image_1.resize_exact width height, image_2.resize_exact width height)

/-- The loop body access of alternate_pixels: vec_1 at indices divisible by 4,
vec_2 elsewhere; Option models the bounds-checked (panicking) index. -/
def alternate_pixels_go (vec_1 vec_2 : List Nat) : Nat → Nat → Option (List Nat)
  | _, 0 => some []
  | i, fuel + 1 =>
    (if i % 4 = 0 then vec_1[i]? else vec_2[i]?).bind fun b =>
      (alternate_pixels_go vec_1 vec_2 (i + 1) fuel).map fun rest => b :: rest

/-- alternate_pixels of src/main.rs: for i in 0..vec_1.len() pushes vec_1[i]
when i % 4 == 0 and vec_2[i] otherwise; none models an out-of-bounds panic. -/
def alternate_pixels (vec_1 vec_2 : List Nat) : Option (List Nat) :=
  alternate_pixels_go vec_1 vec_2 0 vec_1.length

/-- DynamicImage::to_rgba8().into_vec(): the row-major flat RGBA byte
buffer of the image. -/
def DynamicImage.to_rgba8 (img : DynamicImage) : List Nat :=
  (List.range img.height).flatMap fun y =>
    (List.range img.width).flatMap fun x =>
      [(img.pixel x y).r, (img.pixel x y).g, (img.pixel x y).b, (img.pixel x y).a]

/-- combine_images of src/main.rs: converts both images to RGBA byte buffers
and interleaves them with alternate_pixels. -/
def combine_images (image_1 image_2 : DynamicImage) : Option (List Nat) :=
  alternate_pixels image_1.to_rgba8 image_2.to_rgba8

/-- Model of image io Reader after open: what format detection and decoding
yield for the opened stream. -/
structure Reader where
  format : Option ImageFormat
  decodeResult : Except ImageError DynamicImage

/-- get_image_from_path of src/main.rs, with the result of Reader::open
passed explicitly: matches on open, then on format detection, then on
decoding, producing the corresponding ImageDataErrors variant or the decoded
image paired with its format. -/
def get_image_from_path (openResult : Except IOError Reader) (path : String) :
    Except ImageDataErrors (DynamicImage × ImageFormat) :=
  match openResult with
  | Except.ok reader =>
    match reader.format with
    | some format =>
      match reader.decodeResult with
      | Except.ok image => Except.ok (image, format)
      | Except.error e => Except.error (ImageDataErrors.UnableToDecodeImage e)
    | none => Except.error (ImageDataErrors.UnableToFormatImage path)
  | Except.error e => Except.error (ImageDataErrors.UnableToReadImageFromPath e)

/-- Observable pixel-work effects of the pipeline, in program order. -/
inductive PipelineEvent
  | Resized
  | Combined
  | Assigned
  | Saved
  deriving DecidableEq, Repr

/-- A fresh Vec produced by the push loop of alternate_pixels; the capacity is
at least the length (its exact value does not affect any verified claim). -/
def vec_from_list (l : List Nat) : RustVec :=
  { data := l, cap := l.length }

/-- main of src/main.rs after argument parsing, with the two Reader::open
results and the save_buffer_with_format outcome passed explicitly. Returns
the process result together with the trace of pixel-work effects; none models
a panic inside alternate_pixels. -/
def runPipeline (open_1 open_2 : Except IOError Reader)
    (path_1 path_2 outName : String) (saveResult : Except ImageError Unit) :
    Option (Except ImageDataErrors Unit × List PipelineEvent) :=
  match get_image_from_path open_1 path_1 with
  | Except.error e => some (Except.error e, [])
  | Except.ok (image_1, image_format_1) =>
    match get_image_from_path open_2 path_2 with
    | Except.error e => some (Except.error e, [])
    | Except.ok (image_2, image_format_2) =>
      if image_format_1 ≠ image_format_2 then
        some (Except.error ImageDataErrors.DifferentImageFormats, [])
      else
        let (image_1, image_2) := standardize_size image_1 image_2
        let output := FloatingImage.new image_1.width image_1.height outName
        match combine_images image_1 image_2 with
        | none => none
        | some combined_data =>
          match output.set_data (vec_from_list combined_data) with
          | (Except.error e, _) =>
            some (Except.error e, [PipelineEvent.Resized, PipelineEvent.Combined])
          | (Except.ok _, _) =>
            match saveResult with
            | Except.error e =>
              some (Except.error (ImageDataErrors.UnableToSaveImage e),
                [PipelineEvent.Resized, PipelineEvent.Combined, PipelineEvent.Assigned])
            | Except.ok _ =>
              some (Except.ok (),
                [PipelineEvent.Resized, PipelineEvent.Combined,
                 PipelineEvent.Assigned, PipelineEvent.Saved])

/-- The u32 buffer size equals the exact product when it fits in 32 bits. -/
theorem buffer_size32_eq (width height : Nat)
    (h : width * height * 4 < U32_MOD) :
    buffer_size32 width height = width * height * 4 := by
  unfold buffer_size32
  have e : height * width * 4 = width * height * 4 := by ring
  have h4 : height * width * 4 < U32_MOD := by rw [e]; exact h
  have h1 : height * width ≤ height * width * 4 := by
    calc height * width = height * width * 1 := by ring
    _ ≤ height * width * 4 := Nat.mul_le_mul_left _ (by norm_num)
  have h2 : height * width < U32_MOD := lt_of_le_of_lt h1 h4
  rw [Nat.mod_eq_of_lt h2, Nat.mod_eq_of_lt h4, e]

/-- C1 counterexample: on an exact tie in pixel count (10*10 = 20*5 = 100),
get_smallest_dimensions selects the SECOND image's dimensions, not the
first's as the claim states. -/
theorem get_smallest_dimensions_tie_counterexample :
    get_smallest_dimensions (10, 10) (20, 5) = (20, 5) ∧
    get_smallest_dimensions (10, 10) (20, 5) ≠ (10, 10) := by
  decide

/-- C1 (amended): when both pixel products fit in 32 bits, the selected
dimensions are those of the image with strictly fewer total pixels, and on an
exact tie the SECOND image's dimensions are selected. -/
theorem get_smallest_dimensions_spec (dim_1 dim_2 : Nat × Nat)
    (h1 : dim_1.1 * dim_1.2 < U32_MOD) (h2 : dim_2.1 * dim_2.2 < U32_MOD) :
    get_smallest_dimensions dim_1 dim_2 =
      if dim_1.1 * dim_1.2 < dim_2.1 * dim_2.2 then dim_1 else dim_2 := by
  unfold get_smallest_dimensions pix32
  rw [Nat.mod_eq_of_lt h1, Nat.mod_eq_of_lt h2]

/-- Witness for the amended C1 theorem at concrete dimensions. -/
theorem get_smallest_dimensions_spec_witness :
    get_smallest_dimensions (1, 2) (3, 4) =
      if 1 * 2 < 3 * 4 then ((1 : Nat), (2 : Nat)) else (3, 4) :=
  get_smallest_dimensions_spec (1, 2) (3, 4) (by decide) (by decide)

/-- C2: on a freshly constructed FloatingImage with width * height * 4
fitting in 32 bits, set_data succeeds exactly when the incoming buffer's
length is at most width * height * 4, and returns BufferTooSmall (the spec's
CapacityExceeded) when the length exceeds that capacity. -/
theorem set_data_capacity_iff (width height : Nat) (name : String)
    (data : RustVec) (hfit : width * height * 4 < U32_MOD) :
    (((FloatingImage.new width height name).set_data data).1 = Except.ok () ↔
      data.data.length ≤ width * height * 4) ∧
    (width * height * 4 < data.data.length →
      ((FloatingImage.new width height name).set_data data).1 =
        Except.error ImageDataErrors.BufferTooSmall) := by
  unfold FloatingImage.set_data FloatingImage.new
  simp only [buffer_size32_eq width height hfit]
  constructor
  · constructor
    · intro h
      by_contra hlen
      simp only [gt_iff_lt] at h
      rw [if_pos (Nat.lt_of_not_le hlen)] at h
      exact absurd h (by simp)
    · intro hlen
      rw [if_neg (by simpa using Nat.not_lt_of_le hlen)]
  · intro hlen
    rw [if_pos (by simpa using hlen)]

/-- Witness for C2 at the exact boundary: a 4-byte buffer on a 1x1 image is
accepted and a 5-byte buffer is rejected. -/
theorem set_data_capacity_iff_witness :
    ((((FloatingImage.new 1 1 "out").set_data
        (RustVec.mk [9, 9, 9, 9] 4)).1 = Except.ok () ↔
      (RustVec.mk [9, 9, 9, 9] 4).data.length ≤ 1 * 1 * 4) ∧
    (1 * 1 * 4 < (RustVec.mk [9, 9, 9, 9] 4).data.length →
      ((FloatingImage.new 1 1 "out").set_data
        (RustVec.mk [9, 9, 9, 9] 4)).1 =
        Except.error ImageDataErrors.BufferTooSmall)) ∧
    (((FloatingImage.new 1 1 "out").set_data
        (RustVec.mk [9, 9, 9, 9, 9] 5)).1 =
      Except.error ImageDataErrors.BufferTooSmall) :=
  ⟨set_data_capacity_iff 1 1 "out" (RustVec.mk [9, 9, 9, 9] 4) (by decide),
   (set_data_capacity_iff 1 1 "out" (RustVec.mk [9, 9, 9, 9, 9] 5)
      (by decide)).2 (by decide)⟩

/-- C6 counterexample: a first successful assignment of an empty buffer with
capacity 100 to a 1x1 output image (capacity 4) is accepted; a second
assignment of a 100-byte buffer is then checked against capacity 100 rather
than 4 and succeeds, leaving the stored data longer than width * height * 4. -/
theorem set_data_reassignment_counterexample :
    (((FloatingImage.new 1 1 "out").set_data
        (RustVec.mk [] 100)).1 = Except.ok ()) ∧
    ((((FloatingImage.new 1 1 "out").set_data (RustVec.mk [] 100)).2.set_data
        (RustVec.mk (List.replicate 100 0) 100)).1 = Except.ok ()) ∧
    ((((FloatingImage.new 1 1 "out").set_data (RustVec.mk [] 100)).2.set_data
        (RustVec.mk (List.replicate 100 0) 100)).2.data.data.length
      > 1 * 1 * 4) := by
  refine ⟨rfl, rfl, ?_⟩
  decide

/-- C6 (amended): a successful set_data bounds the new stored length by the
capacity of the buffer stored immediately before the call; on a freshly
constructed image (with width * height * 4 fitting in 32 bits) that capacity
is width * height * 4, so the first successful assignment satisfies the
claimed bound, but a reassignment is checked against the previously assigned
buffer's capacity and need not. -/
theorem set_data_capacity_invariant (width height : Nat) (name : String)
    (fi fi2 : FloatingImage) (data : RustVec)
    (hfit : width * height * 4 < U32_MOD)
    (h : fi.set_data data = (Except.ok (), fi2)) :
    fi2.data.data.length ≤ fi.data.cap ∧
    (fi = FloatingImage.new width height name →
      fi2.data.data.length ≤ width * height * 4) := by
  unfold FloatingImage.set_data at h
  split at h
  · simp at h
  · next hle =>
    injection h with h1 h2
    subst h2
    have hlen : data.data.length ≤ fi.data.cap :=
      Nat.le_of_not_lt (by simpa using hle)
    refine ⟨hlen, ?_⟩
    intro hfresh
    subst hfresh
    simpa [FloatingImage.new, buffer_size32_eq width height hfit] using hlen

/-- Witness for the amended C6 theorem: a 2-byte buffer assigned to a fresh
1x1 image. -/
theorem set_data_capacity_invariant_witness :
    (((FloatingImage.new 1 1 "out").set_data (RustVec.mk [7, 7] 2)).2.data.data.length
      ≤ (FloatingImage.new 1 1 "out").data.cap) ∧
    (FloatingImage.new 1 1 "out" = FloatingImage.new 1 1 "out" →
      (((FloatingImage.new 1 1 "out").set_data
        (RustVec.mk [7, 7] 2)).2.data.data.length ≤ 1 * 1 * 4)) :=
  set_data_capacity_invariant 1 1 "out" (FloatingImage.new 1 1 "out")
    (((FloatingImage.new 1 1 "out").set_data (RustVec.mk [7, 7] 2)).2)
    (RustVec.mk [7, 7] 2) (by decide) rfl

/-- C10: when set_data fails, the FloatingImage is returned unchanged (width,
height, name and previously stored data all retain their prior values) and
the error is BufferTooSmall. -/
theorem set_data_error_unchanged (fi : FloatingImage) (data : RustVec)
    (e : ImageDataErrors) (fi2 : FloatingImage)
    (h : fi.set_data data = (Except.error e, fi2)) :
    fi2 = fi ∧ e = ImageDataErrors.BufferTooSmall := by
  unfold FloatingImage.set_data at h
  split at h
  · cases h
    exact ⟨rfl, rfl⟩
  · cases h

/-- Witness for C10: an oversized 5-byte buffer on a fresh 1x1 image leaves
the image unchanged. -/
theorem set_data_error_unchanged_witness :
    ((FloatingImage.new 1 1 "out").set_data
        (RustVec.mk [1, 2, 3, 4, 5] 5)).2 = FloatingImage.new 1 1 "out" ∧
    ImageDataErrors.BufferTooSmall = ImageDataErrors.BufferTooSmall :=
  set_data_error_unchanged (FloatingImage.new 1 1 "out")
    (RustVec.mk [1, 2, 3, 4, 5] 5) ImageDataErrors.BufferTooSmall
    (((FloatingImage.new 1 1 "out").set_data (RustVec.mk [1, 2, 3, 4, 5] 5)).2)
    rfl

/-- C8: when the pixel products and the capacity product fit in 32 bits, the
u32 pixel counts computed by get_smallest_dimensions and the u32 capacity
computed by FloatingImage::new equal the exact mathematical values. -/
theorem arithmetic32_exact (dim_1 dim_2 : Nat × Nat) (width height : Nat)
    (h1 : dim_1.1 * dim_1.2 < U32_MOD) (h2 : dim_2.1 * dim_2.2 < U32_MOD)
    (hc : width * height * 4 < U32_MOD) :
    pix32 dim_1 = dim_1.1 * dim_1.2 ∧ pix32 dim_2 = dim_2.1 * dim_2.2 ∧
    buffer_size32 width height = width * height * 4 :=
  ⟨Nat.mod_eq_of_lt h1, Nat.mod_eq_of_lt h2, buffer_size32_eq width height hc⟩

/-- Witness for C8 at concrete dimensions. -/
theorem arithmetic32_exact_witness :
    pix32 (640, 480) = 640 * 480 ∧ pix32 (800, 600) = 800 * 600 ∧
    buffer_size32 640 480 = 640 * 480 * 4 :=
  arithmetic32_exact (640, 480) (800, 600) 640 480
    (by decide) (by decide) (by decide)

/-- Value of the alternate_pixels loop from index i with the given fuel: when
every visited index is in bounds for vec_1 and vec_2 is at least as long, the
loop never panics and produces the pointwise selection. -/
theorem alternate_pixels_go_eq (vec_1 vec_2 : List Nat) (fuel : Nat) :
    ∀ (i : Nat), i + fuel ≤ vec_1.length → vec_1.length ≤ vec_2.length →
      alternate_pixels_go vec_1 vec_2 i fuel =
        some ((List.range' i fuel).map fun j =>
          if j % 4 = 0 then vec_1.getD j 0 else vec_2.getD j 0) := by
  induction fuel with
  | zero =>
    intro i _ _
    simp [alternate_pixels_go]
  | succ fuel ih =>
    intro i h1 h2
    have hi1 : i < vec_1.length := by omega
    have hi2 : i < vec_2.length := by omega
    have hsome : (if i % 4 = 0 then vec_1[i]? else vec_2[i]?) =
        some (if i % 4 = 0 then vec_1.getD i 0 else vec_2.getD i 0) := by
      split
      · rw [List.getElem?_eq_getElem hi1, List.getD_eq_getElem vec_1 0 hi1]
      · rw [List.getElem?_eq_getElem hi2, List.getD_eq_getElem vec_2 0 hi2]
    rw [show alternate_pixels_go vec_1 vec_2 i (fuel + 1) =
        (if i % 4 = 0 then vec_1[i]? else vec_2[i]?).bind fun b =>
          (alternate_pixels_go vec_1 vec_2 (i + 1) fuel).map fun rest =>
            b :: rest from rfl]
    rw [hsome, ih (i + 1) (by omega) h2, List.range'_succ]
    simp

/-- C9: whenever vec_2 is at least as long as vec_1 (in particular under the
equal-dimensions precondition of combine_images), every index access of
alternate_pixels is in bounds, so it returns a result (models: never
panics). -/
theorem alternate_pixels_total (vec_1 vec_2 : List Nat)
    (h : vec_1.length ≤ vec_2.length) :
    ∃ out, alternate_pixels vec_1 vec_2 = some out ∧
      out.length = vec_1.length := by
  refine ⟨(List.range' 0 vec_1.length).map fun j =>
      if j % 4 = 0 then vec_1.getD j 0 else vec_2.getD j 0, ?_, by simp⟩
  unfold alternate_pixels
  exact alternate_pixels_go_eq vec_1 vec_2 vec_1.length 0 (by omega) h

/-- Witness for C9 on concrete buffers of lengths 2 and 3. -/
theorem alternate_pixels_total_witness :
    ∃ out, alternate_pixels [1, 2] [3, 4, 5] = some out ∧
      out.length = [1, 2].length :=
  alternate_pixels_total [1, 2] [3, 4, 5] (by decide)

/-- C3: on equal-length buffers of length 4 * n, alternate_pixels returns a
buffer of length 4 * n whose byte at index i is a's byte when i % 4 = 0 and
b's byte otherwise (for n = 0 the output is empty). -/
theorem alternate_pixels_spec (a b : List Nat) (n : Nat)
    (ha : a.length = 4 * n) (hb : b.length = 4 * n) :
    ∃ out, alternate_pixels a b = some out ∧ out.length = 4 * n ∧
      ∀ i, i < 4 * n → out[i]? = if i % 4 = 0 then a[i]? else b[i]? := by
  refine ⟨(List.range' 0 a.length).map fun j =>
      if j % 4 = 0 then a.getD j 0 else b.getD j 0, ?_, by simp [ha], ?_⟩
  · unfold alternate_pixels
    exact alternate_pixels_go_eq a b a.length 0 (by omega) (by omega)
  · intro i hi
    have hia : i < a.length := by omega
    have hib : i < b.length := by omega
    rw [← List.range_eq_range', List.getElem?_map, List.getElem?_range hia,
      Option.map_some']
    split
    · rw [List.getD_eq_getElem a 0 hia, List.getElem?_eq_getElem hia]
    · rw [List.getD_eq_getElem b 0 hib, List.getElem?_eq_getElem hib]

/-- Witness for C3 on the concrete 4-byte buffers [1,2,3,4] and [5,6,7,8]. -/
theorem alternate_pixels_spec_witness :
    ∃ out, alternate_pixels [1, 2, 3, 4] [5, 6, 7, 8] = some out ∧
      out.length = 4 * 1 ∧
      ∀ i, i < 4 * 1 →
        out[i]? = if i % 4 = 0 then [1, 2, 3, 4][i]? else [5, 6, 7, 8][i]? :=
  alternate_pixels_spec [1, 2, 3, 4] [5, 6, 7, 8] 1 (by decide) (by decide)

/-- C4: standardize_size always returns two images whose widths and heights
both equal the target dimensions selected by get_smallest_dimensions; it is a
total function (no failure mode). -/
theorem standardize_size_dims (image_1 image_2 : DynamicImage) :
    (standardize_size image_1 image_2).1.width =
        (get_smallest_dimensions image_1.dimensions image_2.dimensions).1 ∧
    (standardize_size image_1 image_2).1.height =
        (get_smallest_dimensions image_1.dimensions image_2.dimensions).2 ∧
    (standardize_size image_1 image_2).2.width =
        (get_smallest_dimensions image_1.dimensions image_2.dimensions).1 ∧
    (standardize_size image_1 image_2).2.height =
        (get_smallest_dimensions image_1.dimensions image_2.dimensions).2 := by
  rcases hg : get_smallest_dimensions image_1.dimensions image_2.dimensions
    with ⟨w, ht⟩
  simp [standardize_size, hg, DynamicImage.resize_exact]

/-- C7: get_image_from_path yields exactly one of four outcomes, decided in
this order: the open error, the undetected-format error carrying the path,
the decode error carrying the codec error, or success with the decoded image
paired with its detected format; never a partial result. -/
theorem get_image_from_path_cases (openResult : Except IOError Reader)
    (path : String) :
    (∃ e, openResult = Except.error e ∧
      get_image_from_path openResult path =
        Except.error (ImageDataErrors.UnableToReadImageFromPath e)) ∨
    (∃ reader, openResult = Except.ok reader ∧ reader.format = none ∧
      get_image_from_path openResult path =
        Except.error (ImageDataErrors.UnableToFormatImage path)) ∨
    (∃ reader fmt e, openResult = Except.ok reader ∧
      reader.format = some fmt ∧ reader.decodeResult = Except.error e ∧
      get_image_from_path openResult path =
        Except.error (ImageDataErrors.UnableToDecodeImage e)) ∨
    (∃ reader fmt image, openResult = Except.ok reader ∧
      reader.format = some fmt ∧ reader.decodeResult = Except.ok image ∧
      get_image_from_path openResult path = Except.ok (image, fmt)) := by
  cases openResult with
  | error e => exact Or.inl ⟨e, rfl, rfl⟩
  | ok reader =>
    cases hf : reader.format with
    | none =>
      exact Or.inr (Or.inl ⟨reader, rfl, hf,
        by simp [get_image_from_path, hf]⟩)
    | some fmt =>
      cases hd : reader.decodeResult with
      | error e =>
        exact Or.inr (Or.inr (Or.inl ⟨reader, fmt, e, rfl, hf, hd,
          by simp [get_image_from_path, hf, hd]⟩))
      | ok image =>
        exact Or.inr (Or.inr (Or.inr ⟨reader, fmt, image, rfl, hf, hd,
          by simp [get_image_from_path, hf, hd]⟩))

/-- C5: when both loads succeed and the two detected formats differ, the
pipeline fails with DifferentImageFormats and its pixel-work trace is empty:
no resize, no interleave, no output assignment and no file write occurred. -/
theorem pipeline_format_mismatch (open_1 open_2 : Except IOError Reader)
    (path_1 path_2 outName : String) (saveResult : Except ImageError Unit)
    (image_1 image_2 : DynamicImage) (f1 f2 : ImageFormat)
    (h1 : get_image_from_path open_1 path_1 = Except.ok (image_1, f1))
    (h2 : get_image_from_path open_2 path_2 = Except.ok (image_2, f2))
    (hne : f1 ≠ f2) :
    runPipeline open_1 open_2 path_1 path_2 outName saveResult =
      some (Except.error ImageDataErrors.DifferentImageFormats, []) := by
  unfold runPipeline
  rw [h1, h2]
  simp [hne]

/-- A concrete 1x1 image used in witnesses. -/
def unitImage : DynamicImage :=
  { width := 1, height := 1,
    pixel := fun _ _ => { r := 0, g := 0, b := 0, a := 0 } }

/-- Witness for C5: a PNG-tagged and a JPEG-tagged load make the pipeline
fail with DifferentImageFormats and an empty trace. -/
theorem pipeline_format_mismatch_witness :
    runPipeline
      (Except.ok { format := some ImageFormat.Png,
                   decodeResult := Except.ok unitImage })
      (Except.ok { format := some ImageFormat.Jpeg,
                   decodeResult := Except.ok unitImage })
      "a.png" "b.jpg" "out.png" (Except.ok ()) =
      some (Except.error ImageDataErrors.DifferentImageFormats, []) :=
  pipeline_format_mismatch
    (Except.ok { format := some ImageFormat.Png,
                 decodeResult := Except.ok unitImage })
    (Except.ok { format := some ImageFormat.Jpeg,
                 decodeResult := Except.ok unitImage })
    "a.png" "b.jpg" "out.png" (Except.ok ()) unitImage unitImage
    ImageFormat.Png ImageFormat.Jpeg rfl rfl (by decide)
